import Mathlib

/-!
Verification of the LSPS1 channel-request manager
(`src/channel_request/channel_manager.rs` and `src/channel_request/msgs.rs`).

The source's `HashMap`s are embedded as association lists with `lookupA`,
`insertA` (replace-in-place, append when absent, matching `HashMap::insert`
up to iteration order), `eraseA` (`HashMap::remove`) and `updateA`
(mutation through an `&mut` borrow of the value stored at a key).
Machine integers (`u64`, `u128`, `u32`, `u16`, `u8`) are embedded as `Nat`;
an explicit `% 2 ^ 64` is written at the one place the source adds two
`u64` values (`check_fees`).
-/

namespace LSPS1

section AListModel

variable {α β : Type} [DecidableEq α]

/-- Lookup in an association list: the value of the first entry with the key. -/
def lookupA : List (α × β) → α → Option β
  | [], _ => none
  | p :: l, k => if p.1 = k then some p.2 else lookupA l k

/-- `HashMap::insert`: replace the first entry holding the key, else append. -/
def insertA : List (α × β) → α → β → List (α × β)
  | [], k, v => [(k, v)]
  | p :: l, k, v => if p.1 = k then (k, v) :: l else p :: insertA l k v

/-- `HashMap::remove`: drop the entries holding the key. -/
def eraseA : List (α × β) → α → List (α × β)
  | [], _ => []
  | p :: l, k => if p.1 = k then eraseA l k else p :: eraseA l k

/-- Mutation through an `&mut` borrow of the value stored at a key. -/
def updateA (l : List (α × β)) (k : α) (f : β → β) : List (α × β) :=
  l.map (fun p => if p.1 = k then (p.1, f p.2) else p)

theorem lookupA_eraseA_self (l : List (α × β)) (k : α) :
    lookupA (eraseA l k) k = none := by
  induction l with
  | nil => rfl
  | cons p l ih =>
    by_cases h : p.1 = k
    · simpa [eraseA, h] using ih
    · simpa [eraseA, lookupA, h] using ih

theorem eraseA_of_lookupA_eq_none (l : List (α × β)) (k : α)
    (h : lookupA l k = none) : eraseA l k = l := by
  induction l with
  | nil => rfl
  | cons p l ih =>
    by_cases hp : p.1 = k
    · simp [lookupA, hp] at h
    · simp only [lookupA, hp, if_false, if_neg hp] at h
      simp [eraseA, hp, ih h]

theorem lookupA_insertA_self (l : List (α × β)) (k : α) (v : β) :
    lookupA (insertA l k v) k = some v := by
  induction l with
  | nil => simp [insertA, lookupA]
  | cons p l ih =>
    by_cases h : p.1 = k
    · simp [insertA, h, lookupA]
    · simp [insertA, h, lookupA, ih]

theorem lookupA_insertA_of_ne (l : List (α × β)) (k k' : α) (v : β)
    (h : k' ≠ k) : lookupA (insertA l k v) k' = lookupA l k' := by
  have h' : k ≠ k' := Ne.symm h
  induction l with
  | nil => simp [insertA, lookupA, h']
  | cons p l ih =>
    by_cases hp : p.1 = k
    · subst hp
      simp [insertA, lookupA, h']
    · simp [insertA, hp, lookupA, ih]

theorem insertA_of_lookupA_eq_some (l : List (α × β)) (k : α) (v : β)
    (h : lookupA l k = some v) : insertA l k v = l := by
  induction l with
  | nil => simp [lookupA] at h
  | cons p l ih =>
    by_cases hp : p.1 = k
    · have hv : p.2 = v := by
        simpa [lookupA, hp] using h
      obtain ⟨a, b⟩ := p
      simp only at hp hv
      subst hp
      subst hv
      simp [insertA]
    · simp only [lookupA, if_neg hp] at h
      simp [insertA, hp, ih h]

theorem lookupA_updateA_self (l : List (α × β)) (k : α) (f : β → β) :
    lookupA (updateA l k f) k = (lookupA l k).map f := by
  induction l with
  | nil => rfl
  | cons p l ih =>
    by_cases h : p.1 = k
    · simp [updateA, lookupA, h]
    · simpa [updateA, lookupA, h] using ih

theorem lookupA_updateA_of_ne (l : List (α × β)) (k k' : α) (f : β → β)
    (h : k' ≠ k) : lookupA (updateA l k f) k' = lookupA l k' := by
  have h' : k ≠ k' := Ne.symm h
  induction l with
  | nil => rfl
  | cons p l ih =>
    by_cases hp : p.1 = k
    · subst hp
      simpa [updateA, lookupA, h'] using ih
    · simp only [updateA] at ih
      simp [updateA, lookupA, hp, ih]

end AListModel

/-- Modelled from the spec: the transport layer's `RequestId` newtype
(`src/transport/msgs.rs` is not among the provided sources) — an "opaque
unique token" over the hex string drawn in `generate_request_id`. -/
structure RequestId where
  id : String
deriving DecidableEq

/-- `OrderId(pub String)` from `msgs.rs`. -/
structure OrderId where
  id : String
deriving DecidableEq

/-- Opaque stand-in for `bitcoin::secp256k1::PublicKey`. -/
structure PublicKey where
  key : Nat
deriving DecidableEq

/-- Modelled from the spec: the transport layer's `ResponseError`
(`src/transport/msgs.rs` is not among the provided sources) — the wire error
object `{code, message}` of section 6. -/
structure ResponseError where
  code : Nat
  message : String
deriving DecidableEq

/-- `const SUPPORTED_SPEC_VERSION: u16 = 1`. -/
def SUPPORTED_SPEC_VERSION : Nat := 1

inductive ChannelState
  | InfoRequested
  | OrderRequested
  | PendingSelection
  | PendingPayment
  | Ready
deriving DecidableEq

inductive OrderState
  | Requested
  | Created
  | Completed
  | Failed
deriving DecidableEq

inductive PaymentState
  | ExpectPayment
  | Hold
  | Paid
  | Refunded
deriving DecidableEq

inductive ChannelStatus
  | Opening
  | Opened
  | Closed
deriving DecidableEq

structure GetInfoRequest where
deriving DecidableEq

structure OptionsSupported where
  minimum_channel_confirmations : Nat
  minimum_onchain_payment_confirmations : Nat
  supports_zero_channel_reserve : Bool
  min_onchain_payment_size_sat : Option Nat
  max_channel_expiry_blocks : Nat
  min_initial_client_balance_sat : Nat
  max_initial_client_balance_sat : Nat
  min_initial_lsp_balance_sat : Nat
  max_initial_lsp_balance_sat : Nat
  min_channel_balance_sat : Nat
  max_channel_balance_sat : Nat
deriving DecidableEq

structure GetInfoResponse where
  supported_versions : List Nat
  website : String
  options : OptionsSupported
deriving DecidableEq

structure Order where
  order_id : Option OrderId
  api_version : Nat
  lsp_balance_sat : Nat
  client_balance_sat : Nat
  confirms_within_blocks : Nat
  channel_expiry_blocks : Nat
  token : String
  announce_channel : Bool
  refund_onchain_address : Option String
  order_state : OrderState
deriving DecidableEq

structure CreateOrderRequest where
  order : Order
deriving DecidableEq

structure OnchainPayment where
  outpoint : String
  sat : Nat
  confirmed : Bool
deriving DecidableEq

structure Payment where
  state : PaymentState
  fee_total_sat : Nat
  order_total_sat : Nat
  onchain_address : String
  bolt11_invoice : String
  onchain_block_confirmations_required : Nat
  minimum_fee_for_0conf : Nat
  onchain_payment : OnchainPayment
deriving DecidableEq

structure ChannelInfo where
  state : ChannelStatus
  funded_at : String
  funding_outpoint : String
  scid : Option String
  expires_at : String
  closing_transaction : Option String
  closed_at : Option String
deriving DecidableEq

structure CreateOrderResponse where
  order : Order
  created_at : String
  expires_at : String
  payment : Payment
  channel : Option ChannelInfo
deriving DecidableEq

structure GetOrderRequest where
  order_id : OrderId
deriving DecidableEq

structure GetOrderResponse where
  response : Order
deriving DecidableEq

inductive Request
  | GetInfo (r : GetInfoRequest)
  | CreateOrder (r : CreateOrderRequest)
  | GetOrder (r : GetOrderRequest)
deriving DecidableEq

inductive Response
  | GetInfo (r : GetInfoResponse)
  | GetInfoError (e : ResponseError)
  | CreateOrder (r : CreateOrderResponse)
  | OrderError (e : ResponseError)
  | GetOrder (r : GetOrderResponse)
  | GetOrderError (e : ResponseError)
deriving DecidableEq

inductive Message
  | Request (id : RequestId) (r : Request)
  | Response (id : RequestId) (r : Response)
deriving DecidableEq

/-- `LSPSMessage` (transport layer, modelled from the spec at its boundary):
the only variant this module produces is the LSPS1 wrapper installed by
`impl From<Message> for LSPSMessage`. -/
inductive LSPSMessage
  | LSPS1 (m : Message)
deriving DecidableEq

/-- `channel_request::event::Event`. The `PaymentforChannel` variant is
constructed by `liquidity_source_selected` in `channel_manager.rs` although
`event.rs` does not declare it (the source is a non-compiling draft); it is
included so that handler's enqueue can be embedded. -/
inductive LSPS1Event
  | GetInfoResponse (channel_id : Nat) (request_id : RequestId)
      (counterparty_node_id : PublicKey) (version : List Nat)
      (website : String) (options_supported : OptionsSupported)
  | CreateInvoice (request_id : RequestId) (counterparty_node_id : PublicKey)
      (order : Order)
  | PayforChannel (request_id : RequestId) (counterparty_node_id : PublicKey)
      (order : Order) (payment : Payment) (channel : Option ChannelInfo)
  | UpdatePaymentStatus
  | OpenChannel
  | Refund
  | PaymentforChannel (request_id : RequestId)
      (counterparty_node_id : PublicKey) (order : Order)
deriving DecidableEq

/-- `events::Event`. -/
inductive Event
  | LSPS1 (e : LSPS1Event)
deriving DecidableEq

/-- `lightning::util::logger::Level` (only `Info` is used here). -/
inductive Level
  | Info
deriving DecidableEq

/-- `lightning::ln::msgs::ErrorAction` (only `IgnoreAndLog` is used here). -/
inductive ErrorAction
  | IgnoreAndLog (level : Level)
deriving DecidableEq

/-- `lightning::ln::msgs::LightningError`. -/
structure LightningError where
  err : String
  action : ErrorAction
deriving DecidableEq

/-- `lightning::util::errors::APIError` (only the variant this module
constructs). -/
inductive APIError
  | APIMisuseError (err : String)
deriving DecidableEq

/-- The negotiation record `CRchannel`. `u128` ids are embedded as `Nat`. -/
structure CRchannel where
  channel_id : Nat
  user_id : Nat
  counterparty_node_id : PublicKey
  state : ChannelState
  lsp_balance_sat : Option Nat
  client_balance_sat : Option Nat
  announce_channel : Bool
  order_id : Option OrderId
  info : Option ChannelInfo
deriving DecidableEq

/-- `CRchannel::new`. -/
def CRchannel.new (id : Nat) (counterparty_node_id : PublicKey)
    (user_id : Option Nat) : CRchannel where
  channel_id := id
  user_id := user_id.getD 0
  counterparty_node_id := counterparty_node_id
  state := ChannelState.InfoRequested
  lsp_balance_sat := none
  client_balance_sat := none
  announce_channel := false
  order_id := none
  info := none

/-- The per-peer store `PeerState`. -/
structure PeerState where
  channels_by_id : List (Nat × CRchannel)
  request_to_cid : List (RequestId × Nat)
  pending_orders : List (RequestId × Order)
deriving DecidableEq

/-- `PeerState::default()`. -/
def PeerState.default : PeerState where
  channels_by_id := []
  request_to_cid := []
  pending_orders := []

/-- `PeerState::insert_channel`. -/
def PeerState.insert_channel (ps : PeerState) (channel_id : Nat)
    (channel : CRchannel) : PeerState :=
  { ps with channels_by_id := insertA ps.channels_by_id channel_id channel }

/-- `PeerState::insert_request`. -/
def PeerState.insert_request (ps : PeerState) (request_id : RequestId)
    (channel_id : Nat) : PeerState :=
  { ps with request_to_cid := insertA ps.request_to_cid request_id channel_id }

/-- `PeerState::get_channel_in_state_for_request`. The source returns
`Option<&mut CRchannel>`; the functional embedding returns the key the
borrow points at together with the stored record, plus the store after the
unconditional `self.request_to_cid.remove(request_id)?`. Callers embed
mutation through the returned borrow as `updateA` at the returned key. -/
def PeerState.get_channel_in_state_for_request (ps : PeerState)
    (request_id : RequestId) (state : ChannelState) :
    Option (Nat × CRchannel) × PeerState :=
  match lookupA ps.request_to_cid request_id with
  | none => (none, ps)
  | some channel_id =>
    let ps' := { ps with request_to_cid := eraseA ps.request_to_cid request_id }
    match lookupA ps.channels_by_id channel_id with
    | some channel =>
      if channel.state = state then (some (channel_id, channel), ps')
      else (none, ps')
    | none => (none, ps')

/-- `PeerState::remove_channel`. -/
def PeerState.remove_channel (ps : PeerState) (channel_id : Nat) : PeerState :=
  { ps with channels_by_id := eraseA ps.channels_by_id channel_id }

/-- The mutable state owned by `CRManager`. The `entropy_source` and
`peer_manager` collaborators are external; operations that draw fresh ids
from the entropy source take the drawn id as an explicit argument, and the
`peer_manager.process_events()` wake-up performs no state change here. -/
structure CRManagerState where
  pending_messages : List (PublicKey × LSPSMessage)
  pending_events : List Event
  per_peer_state : List (PublicKey × PeerState)
  channels_by_orderid : List (OrderId × CRchannel)
deriving DecidableEq

/-- `CRManager::enqueue_event`. -/
def enqueue_event (st : CRManagerState) (event : Event) : CRManagerState :=
  { st with pending_events := st.pending_events ++ [event] }

/-- `CRManager::enqueue_response`. -/
def enqueue_response (st : CRManagerState) (counterparty_node_id : PublicKey)
    (request_id : RequestId) (response : Response) : CRManagerState :=
  { st with pending_messages := st.pending_messages ++
      [(counterparty_node_id, LSPSMessage.LSPS1 (Message.Response request_id response))] }

inductive ValidationError
  | GreaterThanMax
  | LessThanMin
deriving DecidableEq

/-- Modelled from the spec: `check_within_bounds(value, max, min)` of the
validation utilities — the source's `check_if_valid` lives in
`src/channel_request/utils.rs`, which is not among the provided sources:
"rejects if `value > max` or `value < min`". -/
def check_if_valid (value mx mn : Nat) : Except ValidationError Unit :=
  if value > mx then Except.error ValidationError.GreaterThanMax
  else if value < mn then Except.error ValidationError.LessThanMin
  else Except.ok ()

/-- `CRManager::connect_to_counterparty`. `channel_id` and `request_id` are
the draws `generate_channel_id()` / `generate_request_id()` take from the
entropy source. The source's function returns `()`: the generated channel
id is dropped, so the embedding returns only the successor state. -/
def connect_to_counterparty (st : CRManagerState)
    (counterparty_node_id : PublicKey) (channel_id : Nat)
    (request_id : RequestId) : CRManagerState :=
  let channel := CRchannel.new channel_id counterparty_node_id none
  let peer_state :=
    (lookupA st.per_peer_state counterparty_node_id).getD PeerState.default
  let peer_state := peer_state.insert_channel channel_id channel
  let peer_state := peer_state.insert_request request_id channel_id
  { st with
    per_peer_state := insertA st.per_peer_state counterparty_node_id peer_state,
    pending_messages := st.pending_messages ++
      [(counterparty_node_id,
        LSPSMessage.LSPS1 (Message.Request request_id (Request.GetInfo {})))] }

/-- `CRManager::handle_get_info_response`. -/
def handle_get_info_response (st : CRManagerState) (request_id : RequestId)
    (counterparty_node_id : PublicKey) (result : GetInfoResponse) :
    Except LightningError Unit × CRManagerState :=
  match lookupA st.per_peer_state counterparty_node_id with
  | some peer_state =>
    match peer_state.get_channel_in_state_for_request request_id
        ChannelState.InfoRequested with
    | (some (cid, channel), ps') =>
      let channel_id := channel.channel_id
      if SUPPORTED_SPEC_VERSION ∈ result.supported_versions then
        let cbid := updateA ps'.channels_by_id cid
          (fun c => { c with state := ChannelState.OrderRequested })
        let ps'' := { ps' with channels_by_id := cbid }
        let ppl := insertA st.per_peer_state counterparty_node_id ps''
        let st' := { st with per_peer_state := ppl }
        (Except.ok (), enqueue_event st'
          (Event.LSPS1 (LSPS1Event.GetInfoResponse channel_id request_id
            counterparty_node_id result.supported_versions result.website
            result.options)))
      else
        let ps'' := ps'.remove_channel channel_id
        let ppl := insertA st.per_peer_state counterparty_node_id ps''
        (Except.error ⟨"Not supported versions: " ++ request_id.id,
            ErrorAction.IgnoreAndLog Level.Info⟩,
          { st with per_peer_state := ppl })
    | (none, ps') =>
      let ppl := insertA st.per_peer_state counterparty_node_id ps'
      (Except.error ⟨"Received get_info response without a matching channel: "
            ++ request_id.id, ErrorAction.IgnoreAndLog Level.Info⟩,
        { st with per_peer_state := ppl })
  | none =>
    (Except.error ⟨"Received get_info response from unknown peer",
        ErrorAction.IgnoreAndLog Level.Info⟩, st)

/-- `CRManager::handle_get_info_error`. -/
def handle_get_info_error (st : CRManagerState) (request_id : RequestId)
    (counterparty_node_id : PublicKey) (error : ResponseError) :
    Except LightningError Unit × CRManagerState :=
  match lookupA st.per_peer_state counterparty_node_id with
  | some peer_state =>
    match peer_state.get_channel_in_state_for_request request_id
        ChannelState.OrderRequested with
    | (some (_cid, channel), ps') =>
      let channel_id := channel.channel_id
      let ps'' := ps'.remove_channel channel_id
      let ppl := insertA st.per_peer_state counterparty_node_id ps''
      (Except.error ⟨"Received error response from getinfo request; removing channel. code = "
            ++ toString error.code ++ ", message = " ++ error.message,
          ErrorAction.IgnoreAndLog Level.Info⟩,
        { st with per_peer_state := ppl })
    | (none, ps') =>
      let ppl := insertA st.per_peer_state counterparty_node_id ps'
      (Except.error ⟨"Received an unexpected error response for a getinfo request from counterparty",
          ErrorAction.IgnoreAndLog Level.Info⟩,
        { st with per_peer_state := ppl })
  | none =>
    (Except.error ⟨"Received error response for a getinfo request from an unknown counterparty",
        ErrorAction.IgnoreAndLog Level.Info⟩, st)

/-- `CRManager::place_order`. `request_id` is the `generate_request_id()`
draw. When the peer is known but the channel id is absent the source falls
through silently to `Ok(())`. -/
def place_order (st : CRManagerState) (counterparty_node_id : PublicKey)
    (channel_id : Nat) (client_order : Order) (request_id : RequestId) :
    Except APIError Unit × CRManagerState :=
  match lookupA st.per_peer_state counterparty_node_id with
  | some peer_state =>
    match lookupA peer_state.channels_by_id channel_id with
    | some channel =>
      if channel.state = ChannelState.OrderRequested then
        let cbid := updateA peer_state.channels_by_id channel_id
          (fun c => { c with state := ChannelState.PendingSelection })
        let ps' := { peer_state with channels_by_id := cbid }
        let ps'' := ps'.insert_request request_id channel_id
        let ppl := insertA st.per_peer_state counterparty_node_id ps''
        (Except.ok (),
          { st with
            per_peer_state := ppl
            pending_messages := st.pending_messages ++
              [(counterparty_node_id, LSPSMessage.LSPS1 (Message.Request
                request_id (Request.CreateOrder { order := client_order })))] })
      else
        (Except.error (APIError.APIMisuseError
          "Channel is not pending selection"), st)
    | none => (Except.ok (), st)
  | none =>
    (Except.error (APIError.APIMisuseError
      ("Channel with id " ++ toString channel_id ++ " not found")), st)

/-- `CRManager::is_valid_order`. The source's body names a `channel_id` that
is not among its parameters (the draft does not compile); it is embedded as
an extra argument. The three `check_if_valid` results are discarded exactly
as in the source (no `?` operator), so every path returns `Ok(())`; the
`ChannelState::PendingPayment` branch is an empty block. No state is
mutated. -/
def is_valid_order (st : CRManagerState) (counterparty_node_id : PublicKey)
    (channel_id : Nat) (order : Order) (options : OptionsSupported) :
    Except LightningError Unit :=
  match lookupA st.per_peer_state counterparty_node_id with
  | some peer_state =>
    match lookupA peer_state.channels_by_id channel_id with
    | some channel =>
      if channel.state = ChannelState.OrderRequested then
        let _chk1 := check_if_valid order.lsp_balance_sat
          options.max_initial_lsp_balance_sat options.min_initial_lsp_balance_sat
        let _chk2 := check_if_valid order.client_balance_sat
          options.max_initial_client_balance_sat
          options.min_initial_client_balance_sat
        let _chk3 := check_if_valid order.channel_expiry_blocks
          options.max_channel_expiry_blocks 0
        Except.ok ()
      else Except.ok ()
    | none => Except.ok ()
  | none => Except.ok ()

/-- `CRManager::handle_create_order_request`. -/
def handle_create_order_request (st : CRManagerState) (request_id : RequestId)
    (counterparty_node_id : PublicKey) (request : CreateOrderRequest) :
    Except LightningError Unit × CRManagerState :=
  let peer_state :=
    (lookupA st.per_peer_state counterparty_node_id).getD PeerState.default
  let po := insertA peer_state.pending_orders request_id request.order
  let ps' := { peer_state with pending_orders := po }
  let ppl := insertA st.per_peer_state counterparty_node_id ps'
  (Except.ok (), enqueue_event { st with per_peer_state := ppl }
    (Event.LSPS1 (LSPS1Event.CreateInvoice request_id counterparty_node_id
      request.order)))

/-- `CRManager::send_invoice_for_order`. `order_id` is the
`generate_order_id()` draw. `set_the_fees` is the provider's fee-setting
collaborator: its body in the source is an explicit stub with no return
expression (the spec models it as a pluggable host callback), so it is
passed as a function argument. The source writes `channel.order_id` and
`channels_by_orderid.insert(order_id, *channel.clone())` through a shared
`get` borrow (a draft slip); the intended record update is embedded. -/
def send_invoice_for_order (st : CRManagerState) (request_id : RequestId)
    (counterparty_node_id : PublicKey) (channel_id : Nat) (order_id : OrderId)
    (set_the_fees : Order → CreateOrderResponse) :
    Except APIError Unit × CRManagerState :=
  match lookupA st.per_peer_state counterparty_node_id with
  | some peer_state =>
    match lookupA peer_state.channels_by_id channel_id with
    | some channel =>
      match lookupA peer_state.pending_orders request_id with
      | some order =>
        match order.order_id with
        | some existing =>
          (Except.error (APIError.APIMisuseError
            ("Invoice already exists for this order with id " ++ existing.id)),
            st)
        | none =>
          let order' := { order with
            order_id := some order_id
            order_state := OrderState.Created }
          let channel' := { channel with order_id := some order_id }
          let po := updateA peer_state.pending_orders request_id
            (fun o => { o with
              order_id := some order_id
              order_state := OrderState.Created })
          let cbid := updateA peer_state.channels_by_id channel_id
            (fun c => { c with order_id := some order_id })
          let ps' := { peer_state with
            pending_orders := po
            channels_by_id := cbid }
          let ppl := insertA st.per_peer_state counterparty_node_id ps'
          let cboid := insertA st.channels_by_orderid order_id channel'
          let response := set_the_fees order'
          (Except.ok (), enqueue_response
            { st with per_peer_state := ppl, channels_by_orderid := cboid }
            counterparty_node_id request_id (Response.CreateOrder response))
      | none => (Except.ok (), st)
    | none => (Except.ok (), st)
  | none =>
    (Except.error (APIError.APIMisuseError
      ("Channel with id " ++ toString channel_id ++ " not found")), st)

/-- `CRManager::handle_create_order_response`. For a known peer the source
locks the peer state but neither reads nor writes it: it only enqueues the
`PayforChannel` event built from the response. -/
def handle_create_order_response (st : CRManagerState) (request_id : RequestId)
    (counterparty_node_id : PublicKey) (response : CreateOrderResponse) :
    Except LightningError Unit × CRManagerState :=
  match lookupA st.per_peer_state counterparty_node_id with
  | some _peer_state =>
    (Except.ok (), enqueue_event st
      (Event.LSPS1 (LSPS1Event.PayforChannel request_id counterparty_node_id
        response.order response.payment response.channel)))
  | none => (Except.ok (), st)

/-- `CRManager::check_fees`. The `u64` addition is embedded with the
explicit 64-bit wrap; the fee-mismatch error message in the source formats a
`request_id` that is not among the function's parameters (a draft slip), so
the message is embedded without it. -/
def check_fees (st : CRManagerState) (counterparty_node_id : PublicKey)
    (channel_id : Nat) (client_order : Order) (max_fees : Nat)
    (response : CreateOrderResponse) : Except APIError Nat × CRManagerState :=
  match lookupA st.per_peer_state counterparty_node_id with
  | some peer_state =>
    match lookupA peer_state.channels_by_id channel_id with
    | some channel =>
      if channel.state = ChannelState.PendingSelection then
        let total_fees := (response.payment.fee_total_sat +
          response.order.client_balance_sat) % 2 ^ 64
        if total_fees = response.payment.order_total_sat ∧
            total_fees < max_fees then
          (Except.ok channel_id, st)
        else
          let ps' := peer_state.remove_channel channel_id
          let ppl := insertA st.per_peer_state counterparty_node_id ps'
          (Except.error (APIError.APIMisuseError
            "No pending buy request for request_id"),
            { st with per_peer_state := ppl })
      else
        (Except.error (APIError.APIMisuseError
          "Channel is not pending selection"), st)
    | none =>
      (Except.error (APIError.APIMisuseError
        ("Channel with id " ++ toString channel_id ++ " not found")), st)
  | none =>
    (Except.error (APIError.APIMisuseError
      "No state for the counterparty exists"), st)

/-- `CRManager::liquidity_source_selected`. The source enqueues the
`PaymentforChannel` event (see `LSPS1Event`); the unknown-peer error message
formats a `channel_id` that is not among the parameters (a draft slip), so
the message is embedded without it. -/
def liquidity_source_selected (st : CRManagerState)
    (counterparty_node_id : PublicKey) (request_id : RequestId)
    (response : CreateOrderResponse) : Except APIError Unit × CRManagerState :=
  match lookupA st.per_peer_state counterparty_node_id with
  | some peer_state =>
    match peer_state.get_channel_in_state_for_request request_id
        ChannelState.PendingSelection with
    | (some (cid, _channel), ps') =>
      let cbid := updateA ps'.channels_by_id cid
        (fun c => { c with
          state := ChannelState.PendingPayment
          lsp_balance_sat := some response.order.lsp_balance_sat
          client_balance_sat := some response.order.client_balance_sat
          announce_channel := response.order.announce_channel })
      let ps'' := { ps' with channels_by_id := cbid }
      let ppl := insertA st.per_peer_state counterparty_node_id ps''
      (Except.ok (), enqueue_event { st with per_peer_state := ppl }
        (Event.LSPS1 (LSPS1Event.PaymentforChannel request_id
          counterparty_node_id response.order)))
    | (none, ps') =>
      let ppl := insertA st.per_peer_state counterparty_node_id ps'
      (Except.error (APIError.APIMisuseError
        "Channel is not pending selection"),
        { st with per_peer_state := ppl })
  | none =>
    (Except.error (APIError.APIMisuseError "Channel with id not found"), st)

/-- `CRManager::pay_for_channel`. The source's fall-through arms return
`Ok(())` although the declared success type is `&Payment` (a draft slip);
the embedding totalizes the result as `Option Payment`, with `none` on
those arms. No state is mutated on any path. -/
def pay_for_channel (st : CRManagerState) (order : CreateOrderResponse)
    (counterparty_node_id : PublicKey) (request_id : RequestId)
    (channel_id : Nat) : Except APIError (Option Payment) × CRManagerState :=
  match lookupA st.per_peer_state counterparty_node_id with
  | some peer_state =>
    match lookupA peer_state.channels_by_id channel_id with
    | some channel =>
      if channel.state = ChannelState.PendingPayment then
        if order.payment.state = PaymentState.ExpectPayment then
          (Except.ok (some order.payment), st)
        else
          (Except.error (APIError.APIMisuseError
            "The order is not expecting payment"), st)
      else
        (Except.error (APIError.APIMisuseError
          "Channel is not pending selection"), st)
    | none => (Except.ok none, st)
  | none => (Except.ok none, st)

/-- `CRManager::check_order_status`. `request_id` is the
`generate_request_id()` draw. The source unwraps `order.order_id`
(panicking when it is `None`); the embedding totalizes the unwrap with a
default order id. -/
def check_order_status (st : CRManagerState) (channel_id : Nat)
    (counterparty_node_id : PublicKey) (order : Order)
    (request_id : RequestId) : Except APIError Unit × CRManagerState :=
  match lookupA st.per_peer_state counterparty_node_id with
  | some peer_state =>
    match lookupA peer_state.channels_by_id channel_id with
    | some _channel =>
      let ps' := peer_state.insert_request request_id channel_id
      let ppl := insertA st.per_peer_state counterparty_node_id ps'
      (Except.ok (),
        { st with
          per_peer_state := ppl
          pending_messages := st.pending_messages ++
            [(counterparty_node_id, LSPSMessage.LSPS1 (Message.Request
              request_id (Request.GetOrder
                { order_id := order.order_id.getD ⟨""⟩ })))] })
    | none =>
      (Except.error (APIError.APIMisuseError
        ("No such channel_id exists: " ++ toString channel_id)), st)
  | none =>
    (Except.error (APIError.APIMisuseError
      "No state for the counterparty exists"), st)

/-- C1: for every request id and expected state,
`PeerState.get_channel_in_state_for_request` removes the
RequestId→channel_id correlation whenever one is present, returns the
negotiation record if and only if the correlation existed, the record still
exists in `channels_by_id`, and the record's state equals the expected
state, and in every case it leaves `channels_by_id` (and `pending_orders`)
entirely unmodified. -/
theorem take_for_state_spec (ps : PeerState) (request_id : RequestId)
    (state : ChannelState) :
    (ps.get_channel_in_state_for_request request_id state).2.channels_by_id
      = ps.channels_by_id ∧
    (ps.get_channel_in_state_for_request request_id state).2.pending_orders
      = ps.pending_orders ∧
    (ps.get_channel_in_state_for_request request_id state).2.request_to_cid
      = eraseA ps.request_to_cid request_id ∧
    ∀ cid ch,
      (ps.get_channel_in_state_for_request request_id state).1
        = some (cid, ch) ↔
      (lookupA ps.request_to_cid request_id = some cid ∧
       lookupA ps.channels_by_id cid = some ch ∧ ch.state = state) := by
  unfold PeerState.get_channel_in_state_for_request
  cases hcorr : lookupA ps.request_to_cid request_id with
  | none =>
    dsimp only
    refine ⟨rfl, rfl, (eraseA_of_lookupA_eq_none _ _ hcorr).symm, ?_⟩
    intro cid ch
    constructor
    · intro h
      cases h
    · rintro ⟨h1, -, -⟩
      cases h1
  | some cid0 =>
    dsimp only
    cases hch : lookupA ps.channels_by_id cid0 with
    | none =>
      dsimp only
      refine ⟨rfl, rfl, rfl, ?_⟩
      intro cid ch
      constructor
      · intro h
        cases h
      · rintro ⟨h1, h2, -⟩
        injection h1 with h1
        subst h1
        rw [hch] at h2
        cases h2
    | some ch0 =>
      dsimp only
      by_cases hst : ch0.state = state
      · simp only [hst, if_true]
        refine ⟨by simp, by simp, by simp, ?_⟩
        intro cid ch
        constructor
        · intro h
          simp only [Option.some.injEq, Prod.mk.injEq] at h
          obtain ⟨rfl, rfl⟩ := h
          exact ⟨rfl, hch, hst⟩
        · rintro ⟨h1, h2, -⟩
          injection h1 with h1
          subst h1
          rw [hch] at h2
          injection h2 with h2
          subst h2
          rfl
      · simp only [hst, if_false]
        refine ⟨by simp, by simp, by simp, ?_⟩
        intro cid ch
        constructor
        · intro h
          cases h
        · rintro ⟨h1, h2, h3⟩
          injection h1 with h1
          subst h1
          rw [hch] at h2
          injection h2 with h2
          subst h2
          exact absurd h3 hst

/-- Helper: the take operation when the correlation resolves to a record in
the expected state. -/
theorem take_eq_of_found (ps : PeerState) (rid : RequestId)
    (s : ChannelState) (cid : Nat) (ch : CRchannel)
    (hcorr : lookupA ps.request_to_cid rid = some cid)
    (hch : lookupA ps.channels_by_id cid = some ch) (hst : ch.state = s) :
    ps.get_channel_in_state_for_request rid s
      = (some (cid, ch),
         { ps with request_to_cid := eraseA ps.request_to_cid rid }) := by
  unfold PeerState.get_channel_in_state_for_request
  rw [hcorr]
  dsimp only
  rw [hch]
  dsimp only
  rw [if_pos hst]

/-- Helper: the take operation when the correlation resolves to a record in
a different state: the correlation is still consumed. -/
theorem take_eq_of_state_ne (ps : PeerState) (rid : RequestId)
    (s : ChannelState) (cid : Nat) (ch : CRchannel)
    (hcorr : lookupA ps.request_to_cid rid = some cid)
    (hch : lookupA ps.channels_by_id cid = some ch) (hst : ch.state ≠ s) :
    ps.get_channel_in_state_for_request rid s
      = (none,
         { ps with request_to_cid := eraseA ps.request_to_cid rid }) := by
  unfold PeerState.get_channel_in_state_for_request
  rw [hcorr]
  dsimp only
  rw [hch]
  dsimp only
  rw [if_neg hst]

section Fixtures

/-- Concrete values used by the closed evaluation theorems below. -/
def pkA : PublicKey := ⟨1⟩

def pkB : PublicKey := ⟨2⟩

def ridA : RequestId := ⟨"aa11"⟩

def ridB : RequestId := ⟨"cc33"⟩

def oidA : OrderId := ⟨"bb22"⟩

def oidB : OrderId := ⟨"dd44"⟩

def optionsA : OptionsSupported where
  minimum_channel_confirmations := 6
  minimum_onchain_payment_confirmations := 1
  supports_zero_channel_reserve := false
  min_onchain_payment_size_sat := none
  max_channel_expiry_blocks := 2016
  min_initial_client_balance_sat := 0
  max_initial_client_balance_sat := 100000
  min_initial_lsp_balance_sat := 10000
  max_initial_lsp_balance_sat := 10000000
  min_channel_balance_sat := 10000
  max_channel_balance_sat := 10000000

def orderA : Order where
  order_id := none
  api_version := 1
  lsp_balance_sat := 1000000
  client_balance_sat := 0
  confirms_within_blocks := 6
  channel_expiry_blocks := 1000
  token := ""
  announce_channel := false
  refund_onchain_address := none
  order_state := OrderState.Requested

def paymentA : Payment where
  state := PaymentState.ExpectPayment
  fee_total_sat := 1000
  order_total_sat := 1000
  onchain_address := ""
  bolt11_invoice := ""
  onchain_block_confirmations_required := 0
  minimum_fee_for_0conf := 0
  onchain_payment := ⟨"", 0, false⟩

def respA : CreateOrderResponse where
  order := orderA
  created_at := ""
  expires_at := ""
  payment := paymentA
  channel := none

/-- A negotiation record with key `cid` held in state `s`. -/
def chanIn (cid : Nat) (s : ChannelState) : CRchannel :=
  { CRchannel.new cid pkA none with state := s }

/-- A per-peer store holding channel `5` in state `s`, correlated to
`ridA`, with `orderA` pending under `ridA`. -/
def psOne (s : ChannelState) : PeerState where
  channels_by_id := [(5, chanIn 5 s)]
  request_to_cid := [(ridA, 5)]
  pending_orders := [(ridA, orderA)]

/-- A manager state holding one peer `pkA` whose channel `5` sits in state
`s`, correlated to `ridA`, with `orderA` pending under `ridA`. -/
def stOne (s : ChannelState) : CRManagerState where
  pending_messages := []
  pending_events := []
  per_peer_state := [(pkA, psOne s)]
  channels_by_orderid := []

end Fixtures

/-- C1 witness: the take theorem instantiated on a concrete store: the
correlated record in the expected state is returned, the correlation is
consumed, and `channels_by_id` is untouched. -/
theorem take_for_state_spec_witness :
    ((psOne ChannelState.InfoRequested).get_channel_in_state_for_request
        ridA ChannelState.InfoRequested).1
      = some (5, chanIn 5 ChannelState.InfoRequested) ∧
    ((psOne ChannelState.InfoRequested).get_channel_in_state_for_request
        ridA ChannelState.InfoRequested).2.request_to_cid = [] ∧
    ((psOne ChannelState.InfoRequested).get_channel_in_state_for_request
        ridA ChannelState.InfoRequested).2.channels_by_id
      = [(5, chanIn 5 ChannelState.InfoRequested)] := by
  have h := take_for_state_spec (psOne ChannelState.InfoRequested) ridA
    ChannelState.InfoRequested
  exact ⟨(h.2.2.2 5 (chanIn 5 ChannelState.InfoRequested)).mpr
      ⟨rfl, rfl, rfl⟩,
    h.2.2.1.trans (by rfl), h.1.trans (by rfl)⟩

/-- C6: when a get_info response arrives for a record in `InfoRequested`
reached through its RequestId correlation: if the supported versions
contain the requester's protocol version the record moves to
`OrderRequested` and a capabilities event carrying the provider's versions,
website and options is enqueued; on an unsupported version the record is
removed, an error is returned, and no event is emitted. -/
theorem handle_get_info_response_spec (st : CRManagerState)
    (request_id : RequestId) (cp : PublicKey) (result : GetInfoResponse)
    (ps : PeerState) (cid : Nat) (ch : CRchannel)
    (hps : lookupA st.per_peer_state cp = some ps)
    (hcorr : lookupA ps.request_to_cid request_id = some cid)
    (hch : lookupA ps.channels_by_id cid = some ch)
    (hid : ch.channel_id = cid)
    (hst : ch.state = ChannelState.InfoRequested) :
    (SUPPORTED_SPEC_VERSION ∈ result.supported_versions →
      (handle_get_info_response st request_id cp result).1 = Except.ok () ∧
      (∃ ps', lookupA (handle_get_info_response st request_id cp
            result).2.per_peer_state cp = some ps' ∧
        lookupA ps'.channels_by_id cid
          = some { ch with state := ChannelState.OrderRequested }) ∧
      (handle_get_info_response st request_id cp result).2.pending_events
        = st.pending_events ++ [Event.LSPS1 (LSPS1Event.GetInfoResponse
            ch.channel_id request_id cp result.supported_versions
            result.website result.options)]) ∧
    (SUPPORTED_SPEC_VERSION ∉ result.supported_versions →
      (∃ e, (handle_get_info_response st request_id cp result).1
        = Except.error e) ∧
      (∃ ps', lookupA (handle_get_info_response st request_id cp
            result).2.per_peer_state cp = some ps' ∧
        lookupA ps'.channels_by_id cid = none) ∧
      (handle_get_info_response st request_id cp result).2.pending_events
        = st.pending_events) := by
  have htake := take_eq_of_found ps request_id ChannelState.InfoRequested
    cid ch hcorr hch hst
  constructor
  · intro hmem
    unfold handle_get_info_response
    rw [hps]
    dsimp only
    rw [htake]
    dsimp only
    rw [if_pos hmem]
    refine ⟨rfl, ⟨_, lookupA_insertA_self _ _ _, ?_⟩, rfl⟩
    dsimp only
    rw [lookupA_updateA_self, hch]
    rfl
  · intro hmem
    unfold handle_get_info_response
    rw [hps]
    dsimp only
    rw [htake]
    dsimp only
    rw [if_neg hmem]
    refine ⟨⟨_, rfl⟩, ⟨_, lookupA_insertA_self _ _ _, ?_⟩, rfl⟩
    dsimp only [PeerState.remove_channel]
    rw [hid]
    exact lookupA_eraseA_self _ _

/-- C6 witness: both branches of `handle_get_info_response_spec`
instantiated on concrete states: a supported-version response at
`stOne ChannelState.InfoRequested` and an unsupported one. -/
theorem handle_get_info_response_spec_witness :
    ((handle_get_info_response (stOne ChannelState.InfoRequested) ridA pkA
        ⟨[1], "w", optionsA⟩).1 = Except.ok () ∧
      (∃ e, (handle_get_info_response (stOne ChannelState.InfoRequested)
          ridA pkA ⟨[2], "w", optionsA⟩).1 = Except.error e)) := by
  have h1 := handle_get_info_response_spec
    (stOne ChannelState.InfoRequested) ridA pkA ⟨[1], "w", optionsA⟩
    _ 5 (chanIn 5 ChannelState.InfoRequested)
    (by rfl) (by rfl) (by rfl) (by rfl) (by rfl)
  have h2 := handle_get_info_response_spec
    (stOne ChannelState.InfoRequested) ridA pkA ⟨[2], "w", optionsA⟩
    _ 5 (chanIn 5 ChannelState.InfoRequested)
    (by rfl) (by rfl) (by rfl) (by rfl) (by rfl)
  exact ⟨(h1.1 (by decide)).1, (h2.2 (by decide)).1⟩

/-- C9: `handle_get_info_error` always returns an error; through the take
chokepoint it removes the correlated record exactly when that record is in
`OrderRequested`; a correlated record in any other state (in particular
`InfoRequested`) is never removed — only its RequestId correlation is
consumed. -/
theorem handle_get_info_error_spec (st : CRManagerState)
    (request_id : RequestId) (cp : PublicKey) (error : ResponseError) :
    (∃ e, (handle_get_info_error st request_id cp error).1
      = Except.error e) ∧
    (∀ ps cid ch, lookupA st.per_peer_state cp = some ps →
      lookupA ps.request_to_cid request_id = some cid →
      lookupA ps.channels_by_id cid = some ch →
      ch.state = ChannelState.OrderRequested →
      ∃ ps', lookupA (handle_get_info_error st request_id cp
          error).2.per_peer_state cp = some ps' ∧
        ps'.channels_by_id = eraseA ps.channels_by_id ch.channel_id ∧
        ps'.request_to_cid = eraseA ps.request_to_cid request_id ∧
        ps'.pending_orders = ps.pending_orders) ∧
    (∀ ps cid ch, lookupA st.per_peer_state cp = some ps →
      lookupA ps.request_to_cid request_id = some cid →
      lookupA ps.channels_by_id cid = some ch →
      ch.state ≠ ChannelState.OrderRequested →
      ∃ ps', lookupA (handle_get_info_error st request_id cp
          error).2.per_peer_state cp = some ps' ∧
        ps'.channels_by_id = ps.channels_by_id ∧
        ps'.request_to_cid = eraseA ps.request_to_cid request_id ∧
        ps'.pending_orders = ps.pending_orders) := by
  refine ⟨?_, ?_, ?_⟩
  · unfold handle_get_info_error
    cases hps : lookupA st.per_peer_state cp with
    | none => exact ⟨_, rfl⟩
    | some ps =>
      dsimp only
      rcases htake : ps.get_channel_in_state_for_request request_id
        ChannelState.OrderRequested with ⟨o, ps'⟩
      cases o with
      | none => exact ⟨_, rfl⟩
      | some p => exact ⟨_, rfl⟩
  · intro ps cid ch hps hcorr hch hst
    have htake := take_eq_of_found ps request_id ChannelState.OrderRequested
      cid ch hcorr hch hst
    unfold handle_get_info_error
    rw [hps]
    dsimp only
    rw [htake]
    dsimp only
    exact ⟨_, lookupA_insertA_self _ _ _, rfl, rfl, rfl⟩
  · intro ps cid ch hps hcorr hch hst
    have htake := take_eq_of_state_ne ps request_id
      ChannelState.OrderRequested cid ch hcorr hch hst
    unfold handle_get_info_error
    rw [hps]
    dsimp only
    rw [htake]
    dsimp only
    exact ⟨_, lookupA_insertA_self _ _ _, rfl, rfl, rfl⟩

/-- C9 witness: on a concrete state with channel `5` in `OrderRequested`
the error handler removes the record and errors; with the channel in
`InfoRequested` the record survives while the correlation is consumed. -/
theorem handle_get_info_error_spec_witness :
    (∃ e, (handle_get_info_error (stOne ChannelState.OrderRequested) ridA
        pkA ⟨1, "boom"⟩).1 = Except.error e) ∧
    (∃ ps', lookupA (handle_get_info_error (stOne ChannelState.OrderRequested)
        ridA pkA ⟨1, "boom"⟩).2.per_peer_state pkA = some ps' ∧
      ps'.channels_by_id = [] ∧ ps'.request_to_cid = []) ∧
    (∃ ps', lookupA (handle_get_info_error (stOne ChannelState.InfoRequested)
        ridA pkA ⟨1, "boom"⟩).2.per_peer_state pkA = some ps' ∧
      ps'.channels_by_id = [(5, chanIn 5 ChannelState.InfoRequested)] ∧
      ps'.request_to_cid = []) := by
  have h := handle_get_info_error_spec
    (stOne ChannelState.OrderRequested) ridA pkA ⟨1, "boom"⟩
  have h' := handle_get_info_error_spec
    (stOne ChannelState.InfoRequested) ridA pkA ⟨1, "boom"⟩
  refine ⟨h.1, ?_, ?_⟩
  · obtain ⟨ps', hl, h1, h2, -⟩ := h.2.1 _ 5
      (chanIn 5 ChannelState.OrderRequested) (by rfl) (by rfl) (by rfl)
      (by rfl)
    exact ⟨ps', hl, by simpa using h1, by simpa using h2⟩
  · obtain ⟨ps', hl, h1, h2, -⟩ := h'.2.2 _ 5
      (chanIn 5 ChannelState.InfoRequested) (by rfl) (by rfl) (by rfl)
      (by decide)
    exact ⟨ps', hl, by simpa using h1, by simpa using h2⟩

/-- C10: `handle_create_order_response` never mutates per-peer state, the
order index or the message queue; for a known peer its only effect is
appending one `PayforChannel` event built from the response, and for an
unknown peer it does nothing; it returns `Ok` either way. -/
theorem handle_create_order_response_frame (st : CRManagerState)
    (request_id : RequestId) (cp : PublicKey)
    (response : CreateOrderResponse) :
    (handle_create_order_response st request_id cp response).1
      = Except.ok () ∧
    (handle_create_order_response st request_id cp response).2.per_peer_state
      = st.per_peer_state ∧
    (handle_create_order_response st request_id cp
        response).2.channels_by_orderid = st.channels_by_orderid ∧
    (handle_create_order_response st request_id cp
        response).2.pending_messages = st.pending_messages ∧
    ((∃ ps, lookupA st.per_peer_state cp = some ps) →
      (handle_create_order_response st request_id cp
          response).2.pending_events = st.pending_events ++
        [Event.LSPS1 (LSPS1Event.PayforChannel request_id cp response.order
          response.payment response.channel)]) ∧
    (lookupA st.per_peer_state cp = none →
      (handle_create_order_response st request_id cp response).2 = st) := by
  unfold handle_create_order_response
  cases hps : lookupA st.per_peer_state cp with
  | none =>
    refine ⟨rfl, rfl, rfl, rfl, ?_, fun _ => rfl⟩
    rintro ⟨ps, hcontra⟩
    cases hcontra
  | some ps =>
    refine ⟨rfl, rfl, rfl, rfl, fun _ => rfl, ?_⟩
    intro hcontra
    cases hcontra

/-- C10 witness: the frame theorem instantiated at a concrete state, with
`pkA` known (one event appended) and `pkB` unknown (state untouched). -/
theorem handle_create_order_response_frame_witness :
    (handle_create_order_response (stOne ChannelState.PendingSelection) ridA
        pkA respA).2.pending_events
      = [Event.LSPS1 (LSPS1Event.PayforChannel ridA pkA respA.order
          respA.payment respA.channel)] ∧
    (handle_create_order_response (stOne ChannelState.PendingSelection) ridA
        pkB respA).2 = stOne ChannelState.PendingSelection := by
  have h := handle_create_order_response_frame
    (stOne ChannelState.PendingSelection) ridA pkA respA
  have h' := handle_create_order_response_frame
    (stOne ChannelState.PendingSelection) ridA pkB respA
  exact ⟨by simpa using h.2.2.2.2.1 ⟨_, rfl⟩, h'.2.2.2.2.2 (by rfl)⟩

/-- C2 (code-bug evaluation): `handle_create_order_response` does not
consume the RequestId correlation, so delivering the same order response
with the same RequestId twice makes the second delivery emit a second
`PayforChannel` event and return `Ok` — not the claimed no-op. -/
theorem handle_create_order_response_second_delivery_emits :
    (handle_create_order_response (stOne ChannelState.PendingSelection) ridA
        pkA respA).2.pending_events.length = 1 ∧
    (handle_create_order_response (handle_create_order_response
        (stOne ChannelState.PendingSelection) ridA pkA respA).2 ridA pkA
        respA).2.pending_events.length = 2 ∧
    (handle_create_order_response (handle_create_order_response
        (stOne ChannelState.PendingSelection) ridA pkA respA).2 ridA pkA
        respA).1 = Except.ok () ∧
    (handle_create_order_response (handle_create_order_response
        (stOne ChannelState.PendingSelection) ridA pkA respA).2 ridA pkA
        respA).2.per_peer_state
      = (stOne ChannelState.PendingSelection).per_peer_state := by
  refine ⟨rfl, rfl, rfl, rfl⟩

/-- The empty manager state, as built by `CRManager::new`. -/
def stEmpty : CRManagerState where
  pending_messages := []
  pending_events := []
  per_peer_state := []
  channels_by_orderid := []

/-- C7 (code-bug evaluation): `connect_to_counterparty` on first contact
creates the peer table, stores a fresh `InfoRequested` record under the
drawn channel id, registers the RequestId correlation, and enqueues exactly
one capabilities request to that peer; the source's function signature
returns `()`, so the drawn channel id is not returned to the caller. -/
theorem connect_to_counterparty_effects :
    (∃ ps, lookupA (connect_to_counterparty stEmpty pkA 42
        ridA).per_peer_state pkA = some ps ∧
      lookupA ps.channels_by_id 42 = some (CRchannel.new 42 pkA none) ∧
      lookupA ps.request_to_cid ridA = some 42) ∧
    (connect_to_counterparty stEmpty pkA 42 ridA).pending_messages
      = [(pkA, LSPSMessage.LSPS1 (Message.Request ridA
          (Request.GetInfo ⟨⟩)))] ∧
    (connect_to_counterparty stEmpty pkA 42 ridA).pending_events = [] ∧
    (CRchannel.new 42 pkA none).state = ChannelState.InfoRequested := by
  exact ⟨⟨_, rfl, rfl, rfl⟩, rfl, rfl, rfl⟩

/-- C4: `send_invoice_for_order` called twice with the same RequestId:
the first call succeeds, records the minted OrderId on both the pending
order and the negotiation record and inserts into the provider order index;
the second call fails with a misuse error and leaves the whole state of the
first call untouched (no second OrderId recorded anywhere). -/
theorem send_invoice_for_order_duplicate (st : CRManagerState)
    (request_id : RequestId) (cp : PublicKey) (cid : Nat)
    (oid oid2 : OrderId) (set_the_fees : Order → CreateOrderResponse)
    (ps : PeerState) (ch : CRchannel) (ord : Order)
    (hps : lookupA st.per_peer_state cp = some ps)
    (hch : lookupA ps.channels_by_id cid = some ch)
    (hord : lookupA ps.pending_orders request_id = some ord)
    (hnone : ord.order_id = none) :
    (send_invoice_for_order st request_id cp cid oid set_the_fees).1
      = Except.ok () ∧
    (∃ ps', lookupA (send_invoice_for_order st request_id cp cid oid
        set_the_fees).2.per_peer_state cp = some ps' ∧
      lookupA ps'.pending_orders request_id = some { ord with
        order_id := some oid
        order_state := OrderState.Created } ∧
      lookupA ps'.channels_by_id cid
        = some { ch with order_id := some oid }) ∧
    lookupA (send_invoice_for_order st request_id cp cid oid
        set_the_fees).2.channels_by_orderid oid
      = some { ch with order_id := some oid } ∧
    (∃ e, (send_invoice_for_order (send_invoice_for_order st request_id cp
        cid oid set_the_fees).2 request_id cp cid oid2 set_the_fees).1
      = Except.error (APIError.APIMisuseError e)) ∧
    (send_invoice_for_order (send_invoice_for_order st request_id cp cid
        oid set_the_fees).2 request_id cp cid oid2 set_the_fees).2
      = (send_invoice_for_order st request_id cp cid oid set_the_fees).2 := by
  unfold send_invoice_for_order
  rw [hps]
  dsimp only
  rw [hch]
  dsimp only
  rw [hord]
  dsimp only
  rw [hnone]
  dsimp only [enqueue_response]
  refine ⟨rfl, ⟨_, lookupA_insertA_self _ _ _, ?_, ?_⟩,
    lookupA_insertA_self _ _ _, ?_, ?_⟩
  · rw [lookupA_updateA_self, hord]
    rfl
  · rw [lookupA_updateA_self, hch]
    rfl
  · simp only [lookupA_insertA_self, lookupA_updateA_self, hch, hord,
      Option.map_some']
    exact ⟨_, rfl⟩
  · simp only [lookupA_insertA_self, lookupA_updateA_self, hch, hord,
      Option.map_some']

/-- C4 witness: the duplicate-finalize theorem instantiated on a concrete
state: first call mints `oidA` and succeeds, second call with a fresh draw
`oidB` fails with a misuse error. -/
theorem send_invoice_for_order_duplicate_witness :
    (send_invoice_for_order (stOne ChannelState.PendingSelection) ridA pkA 5
        oidA (fun _ => respA)).1 = Except.ok () ∧
    (∃ e, (send_invoice_for_order (send_invoice_for_order
        (stOne ChannelState.PendingSelection) ridA pkA 5 oidA
        (fun _ => respA)).2 ridA pkA 5 oidB (fun _ => respA)).1
      = Except.error (APIError.APIMisuseError e)) := by
  have h := send_invoice_for_order_duplicate
    (stOne ChannelState.PendingSelection) ridA pkA 5 oidA oidB
    (fun _ => respA) _ (chanIn 5 ChannelState.PendingSelection) orderA
    (by rfl) (by rfl) (by rfl) (by rfl)
  exact ⟨h.1, h.2.2.2.1⟩

/-- C3 counterexample: at the fee-ceiling boundary — fee total plus client
balance equal to the order total AND equal to the host-supplied maximum —
the claim predicts acceptance, but `check_fees` compares with strict `<`:
it removes the negotiation record and returns a misuse error. -/
theorem check_fees_boundary_counterexample :
    paymentA.fee_total_sat + orderA.client_balance_sat
        = paymentA.order_total_sat ∧
    paymentA.fee_total_sat + orderA.client_balance_sat ≤ 1000 ∧
    (∃ e, (check_fees (stOne ChannelState.PendingSelection) pkA 5 orderA
        1000 respA).1 = Except.error (APIError.APIMisuseError e)) ∧
    (∃ ps', lookupA (check_fees (stOne ChannelState.PendingSelection) pkA 5
        orderA 1000 respA).2.per_peer_state pkA = some ps' ∧
      lookupA ps'.channels_by_id 5 = none) := by
  exact ⟨rfl, by decide, ⟨_, rfl⟩, ⟨_, rfl, rfl⟩⟩

/-- C3 amended: for a channel in `PendingSelection`, `check_fees` succeeds
iff `fee_total_sat + client_balance_sat = order_total_sat` and that sum is
STRICTLY less than the host-supplied maximum (the source uses `<`, not
`≤`); on failure the record is removed and a misuse error is returned; on
success nothing is mutated, and `liquidity_source_selected` then moves the
correlated record to `PendingPayment`, records the committed balances, and
emits the payment event. -/
theorem check_fees_spec (st : CRManagerState) (cp : PublicKey) (cid : Nat)
    (client_order : Order) (max_fees : Nat) (response : CreateOrderResponse)
    (ps : PeerState) (ch : CRchannel)
    (hps : lookupA st.per_peer_state cp = some ps)
    (hch : lookupA ps.channels_by_id cid = some ch)
    (hsel : ch.state = ChannelState.PendingSelection)
    (hov : response.payment.fee_total_sat +
      response.order.client_balance_sat < 2 ^ 64) :
    (response.payment.fee_total_sat + response.order.client_balance_sat
        = response.payment.order_total_sat ∧
      response.payment.fee_total_sat + response.order.client_balance_sat
        < max_fees →
      check_fees st cp cid client_order max_fees response
        = (Except.ok cid, st)) ∧
    (¬ (response.payment.fee_total_sat + response.order.client_balance_sat
        = response.payment.order_total_sat ∧
      response.payment.fee_total_sat + response.order.client_balance_sat
        < max_fees) →
      (∃ e, (check_fees st cp cid client_order max_fees response).1
        = Except.error (APIError.APIMisuseError e)) ∧
      (∃ ps', lookupA (check_fees st cp cid client_order max_fees
          response).2.per_peer_state cp = some ps' ∧
        ps'.channels_by_id = eraseA ps.channels_by_id cid ∧
        ps'.request_to_cid = ps.request_to_cid ∧
        ps'.pending_orders = ps.pending_orders)) ∧
    (∀ (st2 : CRManagerState) (rid : RequestId) (ps2 : PeerState)
        (cid2 : Nat) (ch2 : CRchannel),
      lookupA st2.per_peer_state cp = some ps2 →
      lookupA ps2.request_to_cid rid = some cid2 →
      lookupA ps2.channels_by_id cid2 = some ch2 →
      ch2.state = ChannelState.PendingSelection →
      (liquidity_source_selected st2 cp rid response).1 = Except.ok () ∧
      (∃ ps', lookupA (liquidity_source_selected st2 cp rid
          response).2.per_peer_state cp = some ps' ∧
        lookupA ps'.channels_by_id cid2 = some { ch2 with
          state := ChannelState.PendingPayment
          lsp_balance_sat := some response.order.lsp_balance_sat
          client_balance_sat := some response.order.client_balance_sat
          announce_channel := response.order.announce_channel }) ∧
      (liquidity_source_selected st2 cp rid response).2.pending_events
        = st2.pending_events ++ [Event.LSPS1 (LSPS1Event.PaymentforChannel
            rid cp response.order)]) := by
  refine ⟨?_, ?_, ?_⟩
  · intro hcond
    unfold check_fees
    rw [hps]
    dsimp only
    rw [hch]
    dsimp only
    rw [if_pos hsel, Nat.mod_eq_of_lt hov, if_pos hcond]
  · intro hcond
    unfold check_fees
    rw [hps]
    dsimp only
    rw [hch]
    dsimp only
    rw [if_pos hsel, Nat.mod_eq_of_lt hov, if_neg hcond]
    exact ⟨⟨_, rfl⟩, _, lookupA_insertA_self _ _ _, rfl, rfl, rfl⟩
  · intro st2 rid ps2 cid2 ch2 hps2 hcorr2 hch2 hsel2
    have htake := take_eq_of_found ps2 rid ChannelState.PendingSelection
      cid2 ch2 hcorr2 hch2 hsel2
    unfold liquidity_source_selected
    rw [hps2]
    dsimp only
    rw [htake]
    dsimp only [enqueue_event]
    refine ⟨rfl, ⟨_, lookupA_insertA_self _ _ _, ?_⟩, rfl⟩
    rw [lookupA_updateA_self, hch2]
    rfl

/-- C3 witness: the amended theorem instantiated at a concrete state:
total fees `1000` equal to the order total and strictly below a maximum of
`2000`, so `check_fees` accepts and leaves the state untouched, and
`liquidity_source_selected` then reports `Ok` moving the record to
`PendingPayment`. -/
theorem check_fees_spec_witness :
    check_fees (stOne ChannelState.PendingSelection) pkA 5 orderA 2000 respA
      = (Except.ok 5, stOne ChannelState.PendingSelection) ∧
    (liquidity_source_selected (stOne ChannelState.PendingSelection) pkA
        ridA respA).1 = Except.ok () ∧
    (∃ ps', lookupA (liquidity_source_selected
        (stOne ChannelState.PendingSelection) pkA ridA
        respA).2.per_peer_state pkA = some ps' ∧
      lookupA ps'.channels_by_id 5 = some { chanIn 5
          ChannelState.PendingSelection with
        state := ChannelState.PendingPayment
        lsp_balance_sat := some respA.order.lsp_balance_sat
        client_balance_sat := some respA.order.client_balance_sat
        announce_channel := respA.order.announce_channel }) := by
  have h := check_fees_spec (stOne ChannelState.PendingSelection) pkA 5
    orderA 2000 respA _ (chanIn 5 ChannelState.PendingSelection)
    (by rfl) (by rfl) (by rfl) (by decide)
  have h2 := h.2.2 (stOne ChannelState.PendingSelection) ridA _ 5
    (chanIn 5 ChannelState.PendingSelection) (by rfl) (by rfl) (by rfl)
    (by rfl)
  exact ⟨h.1 (by decide), h2.1, h2.2.1⟩

/-- A proposed order whose LSP balance exceeds the advertised maximum of
`optionsA`. -/
def orderBig : Order := { orderA with lsp_balance_sat := 20000000 }

/-- C8 (code-bug evaluation): the bounds helper rejects `orderBig`'s LSP
balance, but `is_valid_order` discards the `check_if_valid` results and
returns `Ok` for the out-of-bounds order all the same. -/
theorem is_valid_order_out_of_bounds :
    is_valid_order (stOne ChannelState.OrderRequested) pkA 5 orderBig
        optionsA = Except.ok () ∧
    check_if_valid orderBig.lsp_balance_sat
        optionsA.max_initial_lsp_balance_sat
        optionsA.min_initial_lsp_balance_sat
      = Except.error ValidationError.GreaterThanMax := by
  exact ⟨rfl, rfl⟩

/-- Helper: the take operation always leaves the store with exactly the
correlation entry erased (erasing an absent key is the identity). -/
theorem take_snd_eq (ps : PeerState) (rid : RequestId) (s : ChannelState) :
    (ps.get_channel_in_state_for_request rid s).2
      = { ps with request_to_cid := eraseA ps.request_to_cid rid } := by
  unfold PeerState.get_channel_in_state_for_request
  cases hcorr : lookupA ps.request_to_cid rid with
  | none =>
    dsimp only
    rw [eraseA_of_lookupA_eq_none _ _ hcorr]
  | some cid0 =>
    dsimp only
    cases lookupA ps.channels_by_id cid0 with
    | none => rfl
    | some ch0 =>
      dsimp only
      split
      · rfl
      · rfl

/-- A response whose order total is inconsistent with fee plus client
balance. -/
def respB : CreateOrderResponse :=
  { respA with payment := { paymentA with order_total_sat := 999 } }

/-- C5 counterexample: `check_fees` on a fee-total mismatch returns a local
misuse error yet does NOT leave internal state as it was: the negotiation
record is removed from `channels_by_id`. -/
theorem misuse_error_not_noop_counterexample :
    (∃ e, (check_fees (stOne ChannelState.PendingSelection) pkA 5 orderA
        5000 respB).1 = Except.error (APIError.APIMisuseError e)) ∧
    (check_fees (stOne ChannelState.PendingSelection) pkA 5 orderA 5000
        respB).2 ≠ stOne ChannelState.PendingSelection ∧
    (∃ ps', lookupA (check_fees (stOne ChannelState.PendingSelection) pkA 5
        orderA 5000 respB).2.per_peer_state pkA = some ps' ∧
      lookupA ps'.channels_by_id 5 = none) := by
  exact ⟨⟨_, rfl⟩, by decide, ⟨_, rfl, rfl⟩⟩

/-- C5 amended: every Manager operation that can return a local misuse
error leaves the message queue, the event queue and the provider order
index unchanged, and leaves the per-peer tables exactly as they were —
except `check_fees`, which may remove the negotiation record before
failing, and `liquidity_source_selected`, which may consume the RequestId
correlation before failing. Stated as: each operation either leaves the
state untouched, or succeeds, or (for the two exceptions) performs exactly
the stated mutation. -/
theorem misuse_error_frame :
    (∀ (st : CRManagerState) (cp : PublicKey) (cid : Nat) (ord : Order)
        (rid : RequestId),
      (place_order st cp cid ord rid).2 = st ∨
      (place_order st cp cid ord rid).1 = Except.ok ()) ∧
    (∀ (st : CRManagerState) (rid : RequestId) (cp : PublicKey) (cid : Nat)
        (oid : OrderId) (fees : Order → CreateOrderResponse),
      (send_invoice_for_order st rid cp cid oid fees).2 = st ∨
      (send_invoice_for_order st rid cp cid oid fees).1 = Except.ok ()) ∧
    (∀ (st : CRManagerState) (resp : CreateOrderResponse) (cp : PublicKey)
        (rid : RequestId) (cid : Nat),
      (pay_for_channel st resp cp rid cid).2 = st) ∧
    (∀ (st : CRManagerState) (cid : Nat) (cp : PublicKey) (ord : Order)
        (rid : RequestId),
      (check_order_status st cid cp ord rid).2 = st ∨
      (check_order_status st cid cp ord rid).1 = Except.ok ()) ∧
    (∀ (st : CRManagerState) (cp : PublicKey) (cid : Nat) (ord : Order)
        (mx : Nat) (resp : CreateOrderResponse),
      (check_fees st cp cid ord mx resp).2.pending_messages
          = st.pending_messages ∧
      (check_fees st cp cid ord mx resp).2.pending_events
          = st.pending_events ∧
      (check_fees st cp cid ord mx resp).2.channels_by_orderid
          = st.channels_by_orderid ∧
      ((check_fees st cp cid ord mx resp).2 = st ∨
        ∃ ps, lookupA st.per_peer_state cp = some ps ∧
          (check_fees st cp cid ord mx resp).2.per_peer_state
            = insertA st.per_peer_state cp (ps.remove_channel cid))) ∧
    (∀ (st : CRManagerState) (cp : PublicKey) (rid : RequestId)
        (resp : CreateOrderResponse),
      (liquidity_source_selected st cp rid resp).2.pending_messages
          = st.pending_messages ∧
      (liquidity_source_selected st cp rid resp).2.channels_by_orderid
          = st.channels_by_orderid ∧
      ((liquidity_source_selected st cp rid resp).1 = Except.ok () ∨
        ((liquidity_source_selected st cp rid resp).2.pending_events
            = st.pending_events ∧
          ((liquidity_source_selected st cp rid resp).2 = st ∨
            ∃ ps, lookupA st.per_peer_state cp = some ps ∧
              (liquidity_source_selected st cp rid resp).2.per_peer_state
                = insertA st.per_peer_state cp { ps with
                    request_to_cid := eraseA ps.request_to_cid rid })))) := by
  refine ⟨?_, ?_, ?_, ?_, ?_, ?_⟩
  · intro st cp cid ord rid
    unfold place_order
    cases lookupA st.per_peer_state cp with
    | none => exact Or.inl rfl
    | some ps =>
      dsimp only
      cases lookupA ps.channels_by_id cid with
      | none => exact Or.inl rfl
      | some ch =>
        dsimp only
        by_cases hst : ch.state = ChannelState.OrderRequested
        · rw [if_pos hst]
          exact Or.inr rfl
        · rw [if_neg hst]
          exact Or.inl rfl
  · intro st rid cp cid oid fees
    unfold send_invoice_for_order
    cases lookupA st.per_peer_state cp with
    | none => exact Or.inl rfl
    | some ps =>
      dsimp only
      cases lookupA ps.channels_by_id cid with
      | none => exact Or.inl rfl
      | some ch =>
        dsimp only
        cases lookupA ps.pending_orders rid with
        | none => exact Or.inl rfl
        | some ord =>
          dsimp only
          cases ord.order_id with
          | none => exact Or.inr rfl
          | some oid0 => exact Or.inl rfl
  · intro st resp cp rid cid
    unfold pay_for_channel
    cases lookupA st.per_peer_state cp with
    | none => rfl
    | some ps =>
      dsimp only
      cases lookupA ps.channels_by_id cid with
      | none => rfl
      | some ch =>
        dsimp only
        by_cases hst : ch.state = ChannelState.PendingPayment
        · rw [if_pos hst]
          by_cases hpay : resp.payment.state = PaymentState.ExpectPayment
          · rw [if_pos hpay]
          · rw [if_neg hpay]
        · rw [if_neg hst]
  · intro st cid cp ord rid
    unfold check_order_status
    cases lookupA st.per_peer_state cp with
    | none => exact Or.inl rfl
    | some ps =>
      dsimp only
      cases lookupA ps.channels_by_id cid with
      | none => exact Or.inl rfl
      | some ch => exact Or.inr rfl
  · intro st cp cid ord mx resp
    unfold check_fees
    cases hps : lookupA st.per_peer_state cp with
    | none => exact ⟨rfl, rfl, rfl, Or.inl rfl⟩
    | some ps =>
      dsimp only
      cases lookupA ps.channels_by_id cid with
      | none => exact ⟨rfl, rfl, rfl, Or.inl rfl⟩
      | some ch =>
        dsimp only
        by_cases hst : ch.state = ChannelState.PendingSelection
        · rw [if_pos hst]
          by_cases hcond : (resp.payment.fee_total_sat +
              resp.order.client_balance_sat) % 2 ^ 64
                = resp.payment.order_total_sat ∧
              (resp.payment.fee_total_sat +
                resp.order.client_balance_sat) % 2 ^ 64 < mx
          · rw [if_pos hcond]
            exact ⟨rfl, rfl, rfl, Or.inl rfl⟩
          · rw [if_neg hcond]
            exact ⟨rfl, rfl, rfl, Or.inr ⟨ps, rfl, rfl⟩⟩
        · rw [if_neg hst]
          exact ⟨rfl, rfl, rfl, Or.inl rfl⟩
  · intro st cp rid resp
    unfold liquidity_source_selected
    cases hps : lookupA st.per_peer_state cp with
    | none => exact ⟨rfl, rfl, Or.inr ⟨rfl, Or.inl rfl⟩⟩
    | some ps =>
      dsimp only
      have hsnd := take_snd_eq ps rid ChannelState.PendingSelection
      rcases htake : ps.get_channel_in_state_for_request rid
        ChannelState.PendingSelection with ⟨o, ps'⟩
      rw [htake] at hsnd
      dsimp only at hsnd
      cases o with
      | some p =>
        obtain ⟨cid2, ch2⟩ := p
        dsimp only [enqueue_event]
        exact ⟨rfl, rfl, Or.inl rfl⟩
      | none =>
        dsimp only
        subst hsnd
        exact ⟨rfl, rfl, Or.inr ⟨rfl, Or.inr ⟨ps, rfl, rfl⟩⟩⟩

/-- C5 witness: the frame theorem applied to concrete misuse-error calls:
`place_order` on a channel not in `OrderRequested` errors and leaves the
state exactly as it was, as does `check_order_status` on a missing channel
id. -/
theorem misuse_error_frame_witness :
    (∃ e, (place_order (stOne ChannelState.InfoRequested) pkA 5 orderA
        ridB).1 = Except.error (APIError.APIMisuseError e)) ∧
    (place_order (stOne ChannelState.InfoRequested) pkA 5 orderA ridB).2
      = stOne ChannelState.InfoRequested ∧
    (∃ e, (check_order_status (stOne ChannelState.InfoRequested) 7 pkA
        orderA ridB).1 = Except.error (APIError.APIMisuseError e)) ∧
    (check_order_status (stOne ChannelState.InfoRequested) 7 pkA orderA
        ridB).2 = stOne ChannelState.InfoRequested := by
  have h1 := misuse_error_frame.1 (stOne ChannelState.InfoRequested) pkA 5
    orderA ridB
  have h2 := misuse_error_frame.2.2.2.1 (stOne ChannelState.InfoRequested)
    7 pkA orderA ridB
  obtain ⟨e1, he1⟩ : ∃ e, (place_order (stOne ChannelState.InfoRequested)
      pkA 5 orderA ridB).1 = Except.error (APIError.APIMisuseError e) :=
    ⟨_, rfl⟩
  obtain ⟨e2, he2⟩ : ∃ e, (check_order_status
      (stOne ChannelState.InfoRequested) 7 pkA orderA ridB).1
        = Except.error (APIError.APIMisuseError e) :=
    ⟨_, rfl⟩
  refine ⟨⟨e1, he1⟩, ?_, ⟨e2, he2⟩, ?_⟩
  · rcases h1 with h | h
    · exact h
    · rw [h] at he1
      cases he1
  · rcases h2 with h | h
    · exact h
    · rw [h] at he2
      cases he2

end LSPS1
